import Mathlib

/-!
Verification of compose-x/s3-autosync: a shallow embedding of the
reconciliation engine (`files_autosync.py`), the folder filtering and
event dispatch (`files_management.py`), the two historical revisions of
the S3-managed file class (`s3_handler.py` and `s3_file_mgmt.py`) and the
binlog consolidation pipeline (`mysqldb_management.py`), with theorems
about the spec's claims over that embedding.

Strings are embedded as `List Char`; timestamps as `Int` (epoch seconds);
file and object contents as `List Char` (bytes); the object store of one
bucket as an association list from key to object, where a write prepends
and lookup takes the first binding.
-/

namespace S3AutoSync

/-- Characters of a path / key / file content. -/
abbrev Str := List Char

/-! ## os.path helpers used by the sources -/

/-- os.path.basename: everything after the last '/'. -/
def basename (s : Str) : Str := (s.reverse.takeWhile (fun c => c ≠ '/')).reverse

/-- Whitespace for str.strip (the characters appearing in index files). -/
def isSpaceChar (c : Char) : Bool := c = ' ' || c = '\t' || c = '\n' || c = '\r'

/-- Python str.strip(): drop whitespace from both ends. -/
def pstrip (s : Str) : Str := ((s.dropWhile isSpaceChar).reverse.dropWhile isSpaceChar).reverse

/-- Python s.startswith("/"). -/
def startsWithSlash : Str → Bool
  | [] => false
  | c :: _ => c == '/'

/-- Python s.endswith("/"). -/
def endsWithSlash (s : Str) : Bool := startsWithSlash s.reverse

/-- The first two characters are both '/'. -/
def startsWith2Slash : Str → Bool
  | c1 :: c2 :: _ => c1 == '/' && c2 == '/'
  | _ => false

/-- The last two characters are both '/'. -/
def endsWith2Slash (s : Str) : Bool := startsWith2Slash s.reverse

/-- os.path.join for the second argument not starting with '/': a '/' is
inserted unless the directory already ends with one. -/
def joinPath (dir name : Str) : Str :=
  if endsWithSlash dir then dir ++ name else dir ++ '/' :: name

/-- os.path.splitext(p)[-1] for a basename `b`: the suffix from the last dot,
where the leading dots of the name never start an extension. -/
def extOf (b : Str) : Str :=
  let lead := b.takeWhile (fun c => c = '.')
  let rest := b.drop lead.length
  let tailRev := rest.reverse.takeWhile (fun c => c ≠ '.')
  if tailRev.length < rest.length then '.' :: tailRev.reverse else []

/-- Decimal rendering of an epoch timestamp (Python renders
`last_modified.timestamp()` as a float such as "1234.0"; only the digits
matter to the claims, the fractional suffix is not modelled). -/
def intToStr (i : Int) : Str := (toString i).data

/-! ## Data model: local files and the object store -/

/-- One remote object: content bytes and last-modified epoch seconds. -/
structure S3Obj where
  content : Str
  lastModified : Int
deriving DecidableEq, Repr

/-- One local file: content bytes and filesystem mtime (epoch seconds). -/
structure LocalFile where
  content : Str
  mtime : Int
deriving DecidableEq, Repr

/-- The object store of one bucket: key to object, later writes shadow
earlier ones (write = cons, lookup = first match). Nothing ever removes
a binding, mirroring that the sources never call a delete API. -/
abbrev S3State := List (Str × S3Obj)

/-- Association-list lookup: the first binding for the key. -/
def alookup {α : Type} : List (Str × α) → Str → Option α
  | [], _ => none
  | (k, v) :: rest, q => if k = q then some v else alookup rest q

/-! ## Reconciler — files_autosync.py `File` and `check_s3_changes`

The decision logic is a pure function of the local file (existence, size,
mtime) and the remote object (existence, size, last-modified), embedded as
`Option LocalFile` and `Option S3Obj`. The observable transfers are traced
as a list of steps. -/

/-- The transfer / mutation steps `check_s3_changes` can perform, in order. -/
inductive Step where
  | download
  | upload
  | backup
  | setMarker
deriving DecidableEq, Repr

/-- File.exists (files_autosync.py:130-137): the local file is present. -/
def exists_local (lf? : Option LocalFile) : Bool := lf?.isSome

/-- File.exists_in_s3 (files_autosync.py:160-176): the object is present. -/
def exists_in_s3 (ro? : Option S3Obj) : Bool := ro?.isSome

/-- File.local_and_remote_size_identical (files_autosync.py:117-128):
False when the local file is absent, else compares sizes. The
`some/none` cell would raise in Python (`self.object.size` on a missing
object); every call site of `check_s3_changes` guards it behind
`exists_in_s3`, and it is never exercised by the theorems below. -/
def local_and_remote_size_identical (lf? : Option LocalFile) (ro? : Option S3Obj) : Bool :=
  match lf?, ro? with
  | none, _ => false
  | some lf, some ro => lf.content.length == ro.content.length
  | some _, none => false

/-- handle_both_files_present (files_autosync.py:316-341), reached with both
sides present and sizes differing; its branch on timestamps:
equal timestamps log "not modified"; newer S3 version downloads then
assigns `file._local_last_modified`; newer local version backs up then
uploads. -/
def handle_both_files_present (lf : LocalFile) (ro : S3Obj) : List Step :=
  if ro.lastModified = lf.mtime then []
  else if ro.lastModified > lf.mtime ∧
      local_and_remote_size_identical (some lf) (some ro) = false then
    [Step.download, Step.setMarker]
  else if lf.mtime > ro.lastModified ∧
      local_and_remote_size_identical (some lf) (some ro) = false then
    [Step.backup, Step.upload]
  else []

/-- check_s3_changes (files_autosync.py:343-376). The source's elif chain,
organised by the presence of each side: both present and sizes differing
goes to `handle_both_files_present`; both present with equal sizes falls
through the first three guards into the size-identical branch, which only
logs; remote only is the initial download; local only the initial upload;
neither present only logs. -/
def check_s3_changes (lf? : Option LocalFile) (ro? : Option S3Obj) : List Step :=
  match lf?, ro? with
  | some lf, some ro =>
    if local_and_remote_size_identical (some lf) (some ro) = false then
      handle_both_files_present lf ro
    else []
  | none, some _ => [Step.download]
  | some _, none => [Step.upload]
  | none, none => []

/-- The `_local_last_modified` property setter (files_autosync.py:89-95)
assigns `self._local_last_modified = modified`, and that assignment
dispatches through the very same property setter: each activation only
re-enters itself. `fuel` bounds the nesting depth; `none` means the
assignment has not completed within that depth (Python: RecursionError). -/
def set_local_last_modified : Nat → Option Unit
  | 0 => none
  | n + 1 => set_local_last_modified n

/-! ## Regular expressions

A small derivative-based matcher for the patterns the sources compile with
`re.compile`. Python's `pattern.match(s)` matches a prefix of `s`; a
pattern ending in `$` must match up to the end, so a compiled pattern is a
regex together with an end-anchor flag and the matcher picks prefix or
whole-string semantics accordingly. `dot` is `.` (the inputs these claims
evaluate contain no newline). -/

inductive Regex where
  | emp
  | eps
  | chr (c : Char)
  | dot
  | range (lo hi : Char)
  | alt (r1 r2 : Regex)
  | cat (r1 r2 : Regex)
  | star (r : Regex)
deriving DecidableEq, Repr

/-- The regex accepts the empty string. -/
def nullable : Regex → Bool
  | .emp => false
  | .eps => true
  | .chr _ => false
  | .dot => false
  | .range _ _ => false
  | .alt r1 r2 => nullable r1 || nullable r2
  | .cat r1 r2 => nullable r1 && nullable r2
  | .star _ => true

/-- Brzozowski derivative by one character. -/
def deriv : Regex → Char → Regex
  | .emp, _ => .emp
  | .eps, _ => .emp
  | .chr c, a => if a = c then .eps else .emp
  | .dot, _ => .eps
  | .range lo hi, a => if lo ≤ a ∧ a ≤ hi then .eps else .emp
  | .alt r1 r2, a => .alt (deriv r1 a) (deriv r2 a)
  | .cat r1 r2, a =>
    if nullable r1 then .alt (.cat (deriv r1 a) r2) (deriv r2 a)
    else .cat (deriv r1 a) r2
  | .star r, a => .cat (deriv r a) (.star r)

/-- The regex accepts the whole string. -/
def rmatchFull (r : Regex) (s : Str) : Bool := nullable (s.foldl deriv r)

/-- The regex accepts some prefix of the string (Python `re.match` without
an end anchor). -/
def rmatchFrom : Regex → Str → Bool
  | r, [] => nullable r
  | r, c :: cs => nullable r || rmatchFrom (deriv r c) cs

/-- A compiled Python pattern: `anchorEnd` records a trailing `$`. -/
structure Pat where
  re : Regex
  anchorEnd : Bool
deriving DecidableEq, Repr

/-- Python `pattern.match(s)` for a compiled pattern. -/
def pmatch (p : Pat) (s : Str) : Bool :=
  if p.anchorEnd then rmatchFull p.re s else rmatchFrom p.re s

/-- The regex matching one literal string. -/
def litRe (s : Str) : Regex := s.foldr (fun c r => .cat (.chr c) r) .eps

/-- The compiled pattern for the raw string `.*\.tmp$` (the dot before
`tmp` is escaped and literal). -/
def tmpPat : Pat := ⟨.cat (.star .dot) (litRe ".tmp".data), true⟩

/-- The compiled pattern for `mariadb-bin.[0-9]+$` (the dot after `bin`
is unescaped, so it is any-character). -/
def binlogPat : Pat :=
  ⟨.cat (litRe "mariadb-bin".data)
    (.cat .dot (.cat (.range '0' '9') (.star (.range '0' '9')))), true⟩

/-- The compiled pattern for the default `index_file_regex`,
`.*-bin.index$` (unescaped dot before `index`). -/
def indexFilePat : Pat :=
  ⟨.cat (.star .dot) (.cat (litRe "-bin".data) (.cat .dot (litRe "index".data))), true⟩

/-! ## Folder filtering and event dispatch — files_management.py -/

/-- The filter configuration of ManagedFolder (files_management.py:91-104):
literal `whitelist` names, compiled `whitelist_regex` and compiled
`blacklist_regex`. All configured regexes are assumed valid
(`set_regexes_list` drops ones that fail to compile), so the compiled
lists are as long as the string lists and the source's nonemptiness
guards on the string lists coincide with guards on the compiled lists. -/
structure FolderRules where
  whitelist : List Str
  whitelist_re : List Pat
  blacklist_re : List Pat

/-- ManagedFolder.file_is_to_watch (files_management.py:140-157): the
basename is taken first; a nonempty blacklist with a match refuses; else
a nonempty whitelist regex list with a match admits; else a nonempty
literal whitelist containing the name admits; else refuse. -/
def file_is_to_watch (f : FolderRules) (file_name : Str) : Bool :=
  let n := basename file_name
  if !f.blacklist_re.isEmpty && f.blacklist_re.any (fun p => pmatch p n) then false
  else if !f.whitelist_re.isEmpty && f.whitelist_re.any (fun p => pmatch p n) then true
  else if !f.whitelist.isEmpty && decide (n ∈ f.whitelist) then true
  else false

/-- get_file_from_event (files_management.py:219-229): directory events
and filtered-out paths yield nothing; an already registered path resolves
to its entity; an unseen admitted path is registered lazily. The entity is
modelled by its path; the returned pair is (resolved entity, registry
after the call). -/
def get_file_from_event (f : FolderRules) (registry : List Str)
    (isDirectory : Bool) (srcPath : Str) : Option Str × List Str :=
  if isDirectory then (none, registry)
  else if !file_is_to_watch f srcPath then (none, registry)
  else if srcPath ∈ registry then (some srcPath, registry)
  else (some srcPath, srcPath :: registry)

/-! ## Object key construction — S3Config and S3ManagedFile.s3_path -/

/-- S3Config.__init__ (s3_handler.py:57-71, files_management.py:49-63):
`prefix_key if not prefix_key.startswith("/") else prefix_key[1:]`. -/
def prefKeyInit (raw : Str) : Str :=
  if startsWithSlash raw then raw.drop 1 else raw

/-- S3ManagedFile.s3_path (s3_handler.py:109-117, s3_file_mgmt.py:51-59)
applied to the stored prefix `pk` and the file's path relative to the
folder: append a '/' unless one is already trailing, strip one leading
'/' if present, then concatenate the relative path. -/
def s3_path (pk rel : Str) : Str :=
  let p1 := if endsWithSlash pk then pk else pk ++ ['/']
  let p2 := if startsWithSlash p1 then p1.drop 1 else p1
  p2 ++ rel

/-- os.path.relpath(p, dir) for a path strictly inside the folder (the
watched-event case): drop the folder path and its separating slash. -/
def relpathUnder (dir p : Str) : Str := p.drop (dir.length + 1)

/-! ## The two revisions of S3ManagedFile

files_management.py's handlers construct their entities from
s3_file_mgmt.py (`from .s3_file_mgmt import S3ManagedFile`), while
s3_handler.py holds the later revision used for index-file storage. Both
are embedded, as state transformers over `S3State`. -/

/-- The backup object key both revisions form
(s3_handler.py:264-268, s3_file_mgmt.py:188-192):
`f"{key}-{last_modified.timestamp()}{splitext(path)[-1]}"`. -/
def backup_object_key (key : Str) (lm : Int) (localPath : Str) : Str :=
  key ++ '-' :: (intToStr lm ++ extOf (basename localPath))

namespace S3Handler

/-- S3ManagedFile.create_s3_backup (s3_handler.py:252-269) with the
default `exit_on_failure=False`: a missing source object only logs and
returns; otherwise the object is copied to the timestamped backup key.
The S3 copy preserves the content (the backup's own last-modified, which
the store would refresh, plays no role in any claim). -/
def create_s3_backup (st : S3State) (key localPath : Str) : S3State :=
  match alookup st key with
  | none => st
  | some o => (backup_object_key key o.lastModified localPath, o) :: st

/-- S3ManagedFile.upload (s3_handler.py:219-243), without override key:
a missing local file raises OSError, which the method catches and logs
(state unchanged); an empty local file returns before any transfer; else
an existing destination object is backed up first and the new content is
written to the key with a fresh last-modified. -/
def upload (st : S3State) (key : Str) (lf? : Option LocalFile)
    (localPath : Str) (newLM : Int) : S3State :=
  match lf? with
  | none => st
  | some lf =>
    if lf.content.length == 0 then st
    else
      let st1 := if (alookup st key).isSome then create_s3_backup st key localPath else st
      (key, ⟨lf.content, newLM⟩) :: st1

end S3Handler

namespace S3FileMgmt

/-- S3ManagedFile.create_s3_backup (s3_file_mgmt.py:181-193): a missing
source object prints an error but does not return, so the following
`self.object.last_modified` raises (modelled as `Except.error`); with the
object present the copy to the timestamped backup key is made. -/
def create_s3_backup (st : S3State) (key localPath : Str) : Except Unit S3State :=
  match alookup st key with
  | none => .error ()
  | some o => .ok ((backup_object_key key o.lastModified localPath, o) :: st)

/-- S3ManagedFile.upload (s3_file_mgmt.py:163-172), without override key:
the local content is written to the key unconditionally — no empty-file
check and no backup of an existing destination object. -/
def upload (st : S3State) (key : Str) (lf : LocalFile) (newLM : Int) : S3State :=
  (key, ⟨lf.content, newLM⟩) :: st

end S3FileMgmt

/-! ## Event handlers — files_management.py `Handler` -/

/-- What a handler needs of its ManagedFolder: the filter rules, the
folder's absolute path and the S3Config's stored (constructor-normalized)
prefix key. -/
structure FolderCtx where
  rules : FolderRules
  abspath : Str
  prefKey : Str

/-- The key `S3ManagedFile.__init__` binds for a path inside the folder:
`s3_path` of the stored prefix and the path relative to the folder. -/
def entityKey (ctx : FolderCtx) (p : Str) : Str :=
  s3_path ctx.prefKey (relpathUnder ctx.abspath p)

namespace Handler

/-- Handler.on_closed (files_management.py:204-209): resolve or lazily
register the entity, then upload through the s3_file_mgmt revision.
`lf` is the local file read at the event path, `newLM` the last-modified
the store gives the written object. -/
def on_closed (ctx : FolderCtx) (registry : List Str) (isDirectory : Bool)
    (srcPath : Str) (lf : LocalFile) (newLM : Int) (st : S3State) :
    S3State × List Str :=
  match get_file_from_event ctx.rules registry isDirectory srcPath with
  | (none, reg') => (st, reg')
  | (some p, reg') => (S3FileMgmt.upload st (entityKey ctx p) lf newLM, reg')

/-- Handler.on_deleted (files_management.py:211-216): resolve or lazily
register the entity, then create the S3 backup through the s3_file_mgmt
revision (whose error, for a missing remote object, propagates). -/
def on_deleted (ctx : FolderCtx) (registry : List Str) (isDirectory : Bool)
    (srcPath : Str) (st : S3State) : Except Unit S3State × List Str :=
  match get_file_from_event ctx.rules registry isDirectory srcPath with
  | (none, reg') => (.ok st, reg')
  | (some p, reg') => (S3FileMgmt.create_s3_backup st (entityKey ctx p) p, reg')

end Handler

/-! ## MySQL dump pipeline — mysqldb_management.py -/

/-- Existing filesystem paths (all `os.path.exists` needs here). -/
abbrev FS := List Str

/-- The segment-collection loop of create_dump_from_index_file
(mysqldb_management.py:187-201): per index line, strip it, resolve it to
the line itself when that path exists, else to the index directory joined
with the line's basename, and keep it only when the resolved path exists. -/
def binary_log_files (fs : FS) (index_dir_path : Str) : List Str → List Str
  | [] => []
  | l :: ls =>
    let line := pstrip l
    let file_name := basename line
    let file_path := if line ∈ fs then line else joinPath index_dir_path file_name
    if file_path ∈ fs then file_path :: binary_log_files fs index_dir_path ls
    else binary_log_files fs index_dir_path ls

/-- The shell loop of create_dump_from_index_file
(mysqldb_management.py:206-216): one mysqlbinlog invocation per collected
segment, each appending its output to the temporary file, which is then
copied to the destination. `tool` maps a segment path to the bytes
mysqlbinlog emits for it. -/
def consolidated_output (tool : Str → Str) : List Str → Str
  | [] => []
  | f :: rest => tool f ++ consolidated_output tool rest

/-- create_dump_from_index_file (mysqldb_management.py:187-217): the
destination file's content after the call, given the index file's lines. -/
def create_dump_from_index_file (fs : FS) (tool : Str → Str)
    (index_dir_path : Str) (lines : List Str) : Str :=
  consolidated_output tool (binary_log_files fs index_dir_path lines)

/-- create_mysql_dump (mysqldb_management.py:155-164): runs the mysqldump
command line and raises OSError exactly when the subprocess exit code is
non-zero. -/
def create_mysql_dump (exit_code : Int) : Except Unit Unit :=
  if exit_code ≠ 0 then .error () else .ok ()

/-- The walk of create_dump_from_binary_logs
(mysqldb_management.py:166-180): `walk` lists, in `os.walk` order, each
visited root with its file names; a file is an index file when it equals
the explicitly named one or matches the index-file pattern, and each
index file found is consolidated (joined with its root). -/
def matching_index_files (index_file_name : Option Str) (indexPat : Pat)
    (walk : List (Str × List Str)) : List Str :=
  (walk.map (fun rf =>
    (rf.2.filter (fun f =>
      (decide (index_file_name = some f)) || pmatch indexPat f)).map
      (fun f => joinPath rf.1 f))).flatten

/-- The outcome of create_db_dump: either the direct mysqldump succeeded,
or the fallback consolidated from the index files found by walking the
binlog directory. -/
inductive DumpOutcome where
  | direct
  | fallbackConsolidation (index_files : List Str)
deriving DecidableEq, Repr

/-- create_db_dump (mysqldb_management.py:241-258): try the direct dump;
on OSError fall back to create_dump_from_binary_logs with the defaults
(no explicit index file name, the `.*-bin.index$` pattern). -/
def create_db_dump (exit_code : Int) (walk : List (Str × List Str)) : DumpOutcome :=
  match create_mysql_dump exit_code with
  | .ok _ => .direct
  | .error _ => .fallbackConsolidation (matching_index_files none indexFilePat walk)

/-! ## BinLogHandler — mysqldb_management.py:286-304

BinLogHandler.on_closed calls `get_file_from_event(event, self.folder,
override_match_regex=r"mariadb-bin.[0-9]+$")`. The revision of
`get_file_from_event` accepting that parameter is not among the
repository's files (src/ holds only the older revision without it, plus
this caller), so the override handling is modelled from the spec. -/

/-- Modelled from the spec: the `override_match_regex` handling of
`get_file_from_event` is missing from src/ (only its caller
BinLogHandler.on_closed is present). Spec §4.2: "A MySQL binlog folder's
handler additionally requires segment file names to match a
binlog-segment regex (default `mariadb-bin.[0-9]+$`) before admission, as
a second filter layered on top of the folder's own include/exclude
rules." So a non-directory path is admitted exactly when the folder's own
filter admits it and the override pattern matches the file name; admission
then resolves or lazily registers as in the unparametrized revision. -/
def get_file_from_event_override (f : FolderRules) (registry : List Str)
    (isDirectory : Bool) (srcPath : Str) (ovr : Pat) : Option Str × List Str :=
  if isDirectory then (none, registry)
  else if !(file_is_to_watch f srcPath && pmatch ovr (basename srcPath)) then (none, registry)
  else if srcPath ∈ registry then (some srcPath, registry)
  else (some srcPath, srcPath :: registry)

/-- The observable actions of BinLogHandler.on_closed. -/
inductive BinStep where
  | upload
  | dumpTrigger
deriving DecidableEq, Repr

/-- BinLogHandler.on_closed (mysqldb_management.py:295-304): resolve the
file through the override filter; when nothing resolves only a warning is
logged, otherwise the file is uploaded and create_db_dump is triggered. -/
def binlog_on_closed (f : FolderRules) (registry : List Str)
    (isDirectory : Bool) (srcPath : Str) : List BinStep × List Str :=
  match get_file_from_event_override f registry isDirectory srcPath binlogPat with
  | (none, reg') => ([], reg')
  | (some _, reg') => ([BinStep.upload, BinStep.dumpTrigger], reg')

/-! ## Theorems -/

/-- C1: for a watched file that exists both locally and remotely, when the
local size equals the remote size the reconciliation check performs no
transfer — the empty step trace, the NONE action — regardless of the local
and remote timestamps. -/
theorem check_s3_changes_equal_sizes_no_transfer (lf : LocalFile) (ro : S3Obj)
    (h : lf.content.length = ro.content.length) :
    check_s3_changes (some lf) (some ro) = [] := by
  simp [check_s3_changes, local_and_remote_size_identical, h]

/-- Witness for C1 at a concrete input with maximally skewed timestamps. -/
theorem check_s3_changes_equal_sizes_no_transfer_witness :
    check_s3_changes (some ⟨['a'], 3⟩) (some ⟨['b'], 99⟩) = [] :=
  check_s3_changes_equal_sizes_no_transfer ⟨['a'], 3⟩ ⟨['b'], 99⟩ rfl

/-- C2 (code-bug evidence): with both sides present, sizes differing and
the remote strictly newer, the code downloads and then reaches the cached
local-modified marker assignment — but the `_local_last_modified`
property setter only re-enters itself, so the assignment completes at no
nesting depth (Python raises RecursionError right after the download, and
the cached marker is never stored). -/
theorem download_then_marker_update_diverges :
    check_s3_changes (some ⟨['a'], 10⟩) (some ⟨['b', 'b'], 20⟩) =
      [Step.download, Step.setMarker]
    ∧ ∀ fuel : Nat, set_local_last_modified fuel = none := by
  refine ⟨by decide, ?_⟩
  intro fuel
  induction fuel with
  | zero => rfl
  | succ n ih => exact ih

/-- C10: uploading through s3_handler's S3ManagedFile.upload when the
local file exists with size zero transfers nothing: no object is written
and no backup copy is made, so the remote state is unchanged. -/
theorem upload_empty_local_file_is_noop (st : S3State) (key localPath : Str)
    (m newLM : Int) :
    S3Handler.upload st key (some ⟨[], m⟩) localPath newLM = st := rfl

/-- C6: create_db_dump falls back to consolidating from the index files
found by walking the binlog directory exactly when the direct dump tool's
exit code is non-zero (create_mysql_dump surfaces exactly that as
OSError), and takes the direct path exactly on exit code zero — the
non-zero exit is the sole failure signal triggering the fallback. -/
theorem create_db_dump_fallback_iff (ec : Int) (walk : List (Str × List Str)) :
    (create_db_dump ec walk =
      DumpOutcome.fallbackConsolidation (matching_index_files none indexFilePat walk)
      ↔ ec ≠ 0)
    ∧ (create_db_dump ec walk = DumpOutcome.direct ↔ ec = 0) := by
  by_cases h : ec = 0 <;> simp [create_db_dump, create_mysql_dump, h]

/-- Python truthiness guard on a list before `any`: testing the list
nonempty first changes nothing, since `any` of an empty list is false. -/
theorem guard_any_eq {α : Type} (l : List α) (g : α → Bool) :
    (!l.isEmpty && l.any g) = l.any g := by
  cases l <;> simp

/-- Python truthiness guard on a list before membership: same collapse. -/
theorem guard_mem_eq (l : List Str) (a : Str) :
    (!l.isEmpty && decide (a ∈ l)) = decide (a ∈ l) := by
  cases l <;> simp

/-- The folder of the spec's filter invariant: exclude regex `.*\.tmp$`,
literal include `["a.txt"]`, no include regexes. -/
def tmpFolderRules : FolderRules := ⟨["a.txt".data], [], [tmpPat]⟩

/-- C4: a candidate path is admitted for registration exactly when its
base name matches no blacklist regex and (it matches some whitelist regex
or its base name is in the literal whitelist); in particular, with
exclude regex `.*\.tmp$` and literal include `["a.txt"]`, the path
`a.txt.tmp` is never registered (the registry stays empty) while `a.txt`
is. -/
theorem file_admission_iff :
    (∀ (f : FolderRules) (p : Str),
      file_is_to_watch f p =
        (!f.blacklist_re.any (fun pat => pmatch pat (basename p)) &&
          (f.whitelist_re.any (fun pat => pmatch pat (basename p)) ||
            decide (basename p ∈ f.whitelist))))
    ∧ get_file_from_event tmpFolderRules [] false "a.txt.tmp".data = (none, [])
    ∧ get_file_from_event tmpFolderRules [] false "a.txt".data =
        (some "a.txt".data, ["a.txt".data]) := by
  refine ⟨?_, by decide, by decide⟩
  intro f p
  simp only [file_is_to_watch, guard_any_eq, guard_mem_eq]
  cases hB : f.blacklist_re.any (fun pat => pmatch pat (basename p)) <;>
    cases hW : f.whitelist_re.any (fun pat => pmatch pat (basename p)) <;>
      cases hC : decide (basename p ∈ f.whitelist) <;>
        simp [hB, hW, hC]

/-- The collection loop equals a resolve-map followed by an existence
filter, in index-file line order. -/
theorem binary_log_files_eq_filter_map (fs : FS) (dir : Str) (lines : List Str) :
    binary_log_files fs dir lines =
      (lines.map (fun l =>
        let line := pstrip l
        if line ∈ fs then line else joinPath dir (basename line))).filter
        (fun fp => decide (fp ∈ fs)) := by
  induction lines with
  | nil => rfl
  | cons l ls ih =>
    by_cases h :
        (if pstrip l ∈ fs then pstrip l else joinPath dir (basename (pstrip l))) ∈ fs <;>
      simp [binary_log_files, h, ih]

/-- The per-segment concatenation loop equals joining the per-segment
outputs in order. -/
theorem consolidated_output_eq_flatten (tool : Str → Str) (segs : List Str) :
    consolidated_output tool segs = (segs.map tool).flatten := by
  induction segs with
  | nil => rfl
  | cons f rest ih => simp [consolidated_output, ih]

/-- The filesystem of the spec's consolidation scenario: only `d/seg1`
exists; the index file in directory `d` lists `seg1` and `seg2`. -/
def demoFs : FS := ["d/seg1".data]

/-- The index file lines of the scenario (readlines keeps the newline). -/
def demoLines : List Str := [" seg1\n".data, "seg2".data]

/-- C5: consolidation from an index file reads it line by line, resolves
each stripped line as-is when that path exists and otherwise relative to
the index file's directory (joined with the line's basename), silently
drops entries whose resolved path does not exist — the function is total,
never an error — and concatenates the surviving segments' dump-tool
outputs in exactly index-file line order into the destination; on the
spec's scenario (`seg1` present, `seg2` rotated away) the destination is
built from `seg1` alone. -/
theorem create_dump_from_index_file_spec :
    (∀ (fs : FS) (tool : Str → Str) (dir : Str) (lines : List Str),
      create_dump_from_index_file fs tool dir lines =
        (((lines.map (fun l =>
            let line := pstrip l
            if line ∈ fs then line else joinPath dir (basename line))).filter
          (fun fp => decide (fp ∈ fs))).map tool).flatten)
    ∧ ∀ tool : Str → Str,
        create_dump_from_index_file demoFs tool "d".data demoLines =
          tool "d/seg1".data := by
  constructor
  · intro fs tool dir lines
    rw [create_dump_from_index_file, consolidated_output_eq_flatten,
      binary_log_files_eq_filter_map]
  · intro tool
    have h1 : binary_log_files demoFs "d".data demoLines = ["d/seg1".data] := by decide
    unfold create_dump_from_index_file
    rw [h1]
    simp [consolidated_output]

/-- Rules admitting every file name (include regex `.*`), isolating the
effect of the binlog second filter. -/
def permissiveRules : FolderRules := ⟨[], [⟨.star .dot, false⟩], []⟩

/-- C8: a close event delivered to the binlog handler admits the file —
and then uploads it and triggers the dump — exactly when the folder's own
include/exclude rules admit it AND its name matches the binlog-segment
regex `mariadb-bin.[0-9]+$`, layered as a second filter; concretely,
under all-admitting folder rules, `mariadb-bin.000001` is uploaded and
triggers a dump while `mariadb-bin.index` is dropped. -/
theorem binlog_on_closed_second_filter :
    (∀ (f : FolderRules) (reg : List Str) (p : Str),
      (binlog_on_closed f reg false p).1 =
        (if file_is_to_watch f p && pmatch binlogPat (basename p) then
          [BinStep.upload, BinStep.dumpTrigger] else []))
    ∧ (binlog_on_closed permissiveRules [] false "mariadb-bin.000001".data).1 =
        [BinStep.upload, BinStep.dumpTrigger]
    ∧ (binlog_on_closed permissiveRules [] false "mariadb-bin.index".data).1 = [] := by
  refine ⟨?_, by decide, by decide⟩
  intro f reg p
  cases h : (file_is_to_watch f p && pmatch binlogPat (basename p)) with
  | false => simp [binlog_on_closed, get_file_from_event_override, h]
  | true =>
    by_cases hr : p ∈ reg <;>
      simp [binlog_on_closed, get_file_from_event_override, h, hr]

/-- The backup key strictly extends the object key, so the two never
collide. -/
theorem backup_object_key_ne (key : Str) (lm : Int) (lp : Str) :
    backup_object_key key lm lp ≠ key := by
  intro h
  have hlen := congrArg List.length h
  simp [backup_object_key] at hlen

/-- C3 amended: an upload through s3_handler's S3ManagedFile.upload whose
destination key already holds a remote object is preceded by a backup
copy at the timestamped backup key, whose content equals the
pre-overwrite remote object, while the key itself receives the new local
content. (The close-event upload path goes through the s3_file_mgmt
revision instead and makes no backup — see the counterexample.) -/
theorem upload_backup_precedes_overwrite (st : S3State) (key localPath : Str)
    (lf : LocalFile) (newLM : Int) (o : S3Obj)
    (hk : alookup st key = some o) (hne : lf.content ≠ []) :
    alookup (S3Handler.upload st key (some lf) localPath newLM) key =
      some ⟨lf.content, newLM⟩
    ∧ (alookup (S3Handler.upload st key (some lf) localPath newLM)
        (backup_object_key key o.lastModified localPath)).map S3Obj.content =
      some o.content := by
  have hlen : (lf.content.length == 0) = false := by
    cases hc : lf.content with
    | nil => exact absurd hc hne
    | cons a as => rfl
  have hb : S3Handler.create_s3_backup st key localPath =
      (backup_object_key key o.lastModified localPath, o) :: st := by
    unfold S3Handler.create_s3_backup
    rw [hk]
  have hup : S3Handler.upload st key (some lf) localPath newLM =
      (key, ⟨lf.content, newLM⟩) ::
        (backup_object_key key o.lastModified localPath, o) :: st := by
    simp [S3Handler.upload, hlen, hk, hb]
  rw [hup]
  constructor
  · simp [alookup]
  · rw [alookup, if_neg (Ne.symm (backup_object_key_ne key o.lastModified localPath))]
    rw [alookup, if_pos rfl]
    rfl

/-- Witness for C3's amended claim at a concrete store and file. -/
theorem upload_backup_precedes_overwrite_witness :
    alookup (S3Handler.upload [("k".data, ⟨"old".data, 7⟩)] "k".data
        (some ⟨"new".data, 8⟩) "/w/a.txt".data 9) "k".data =
      some ⟨"new".data, 9⟩
    ∧ (alookup (S3Handler.upload [("k".data, ⟨"old".data, 7⟩)] "k".data
        (some ⟨"new".data, 8⟩) "/w/a.txt".data 9)
        (backup_object_key "k".data (7 : Int) "/w/a.txt".data)).map S3Obj.content =
      some "old".data :=
  upload_backup_precedes_overwrite [("k".data, ⟨"old".data, 7⟩)] "k".data
    "/w/a.txt".data ⟨"new".data, 8⟩ 9 ⟨"old".data, 7⟩ (by decide) (by decide)

/-- The folder of the close/delete event counterexamples: literal include
`a.txt`, folder path `/w`, stored prefix `pre`. -/
def wCtx : FolderCtx := ⟨⟨["a.txt".data], [], []⟩, "/w".data, "pre".data⟩

/-- The event path of the counterexamples. -/
def wPath : Str := "/w/a.txt".data

/-- The object key `S3ManagedFile` binds for `wPath` under `wCtx`. -/
def wKey : Str := "pre/a.txt".data

/-- A store already holding a remote object at that key. -/
def wSt : S3State := [(wKey, ⟨"old".data, 7⟩)]

/-- C3 counterexample: an upload triggered by a filesystem close event
goes through s3_file_mgmt's S3ManagedFile.upload, which overwrites the
existing remote object at the destination key without creating any backup
copy: afterwards the key holds the new content and the timestamped backup
key holds nothing. -/
theorem on_closed_upload_makes_no_backup :
    (Handler.on_closed wCtx [] false wPath ⟨"new!".data, 8⟩ 9 wSt).1 =
      [(wKey, ⟨"new!".data, 9⟩), (wKey, ⟨"old".data, 7⟩)]
    ∧ alookup (Handler.on_closed wCtx [] false wPath ⟨"new!".data, 8⟩ 9 wSt).1
        (backup_object_key wKey 7 wPath) = none := by
  constructor <;> decide

/-- The timestamped backup key for `wKey` as the sources form it. -/
def wBackupKey : Str := "pre/a.txt-7.txt".data

/-- C7 counterexample: a delete event for a path the registry does not
hold, but which the folder's filter admits, is not a no-op: the entity is
lazily registered and a remote backup copy is created, changing the
store. -/
theorem on_deleted_unregistered_not_noop :
    Handler.on_deleted wCtx [] false wPath wSt =
      (Except.ok [(wBackupKey, ⟨"old".data, 7⟩), (wKey, ⟨"old".data, 7⟩)], [wPath])
    ∧ [(wBackupKey, (⟨"old".data, 7⟩ : S3Obj)), (wKey, ⟨"old".data, 7⟩)] ≠ wSt := by
  constructor
  · rfl
  · decide

/-- C7 amended: a delete event for a path the folder's filter does not
admit (or a directory event) leaves the store untouched; an admitted path
is resolved or lazily registered and the s3_file_mgmt backup copy is
taken; and in every successful outcome the remote object at the entity's
key is exactly what it was — deletion never removes it. -/
theorem on_deleted_behavior (ctx : FolderCtx) (reg : List Str) (isDir : Bool)
    (p : Str) (st : S3State) :
    (∀ reg', get_file_from_event ctx.rules reg isDir p = (none, reg') →
      Handler.on_deleted ctx reg isDir p st = (.ok st, reg'))
    ∧ (∀ q reg', get_file_from_event ctx.rules reg isDir p = (some q, reg') →
        Handler.on_deleted ctx reg isDir p st =
          (S3FileMgmt.create_s3_backup st (entityKey ctx q) q, reg')
        ∧ ∀ st', S3FileMgmt.create_s3_backup st (entityKey ctx q) q = .ok st' →
            alookup st' (entityKey ctx q) = alookup st (entityKey ctx q)) := by
  constructor
  · intro reg' h
    simp [Handler.on_deleted, h]
  · intro q reg' h
    refine ⟨by simp [Handler.on_deleted, h], ?_⟩
    intro st' h2
    unfold S3FileMgmt.create_s3_backup at h2
    cases hk : alookup st (entityKey ctx q) with
    | none => rw [hk] at h2; exact absurd h2 (by simp)
    | some o =>
      rw [hk] at h2
      have hst : st' =
          (backup_object_key (entityKey ctx q) o.lastModified q, o) :: st := by
        cases h2; rfl
      rw [hst, alookup,
        if_neg (backup_object_key_ne (entityKey ctx q) o.lastModified q), hk]

/-- The head of an append with a nonempty left part is the left part's
head. -/
theorem startsWithSlash_append (x y : Str) (hx : x ≠ []) :
    startsWithSlash (x ++ y) = startsWithSlash x := by
  cases x with
  | nil => exact absurd rfl hx
  | cons c t => rfl

/-- Appending one character decides the trailing-slash test. -/
theorem endsWithSlash_concat (x : Str) (c : Char) :
    endsWithSlash (x ++ [c]) = (c == '/') := by
  unfold endsWithSlash
  rw [List.reverse_append]
  rfl

/-- Prepending a character to a nonempty string leaves its tail end
alone. -/
theorem endsWithSlash_cons (c : Char) (t : Str) (hne : t ≠ []) :
    endsWithSlash (c :: t) = endsWithSlash t := by
  unfold endsWithSlash
  rw [List.reverse_cons, startsWithSlash_append _ _ (by simpa using hne)]

/-- Prepending a character cannot create a double-slash ending that the
tail did not have. -/
theorem endsWith2Slash_of_cons (c : Char) (t : Str)
    (h : endsWith2Slash (c :: t) = false) : endsWith2Slash t = false := by
  unfold endsWith2Slash at *
  rw [List.reverse_cons] at h
  cases ht : t.reverse with
  | nil => rfl
  | cons a u =>
    rw [ht] at h
    cases u with
    | nil => rfl
    | cons b v => exact h

/-- A string ending in exactly one slash splits off that slash. -/
theorem slash_end_decomp (s : Str) (h : endsWithSlash s = true)
    (h2 : endsWith2Slash s = false) :
    ∃ core, s = core ++ ['/'] ∧ endsWithSlash core = false := by
  unfold endsWithSlash endsWith2Slash at *
  cases hs : s.reverse with
  | nil => rw [hs] at h; exact absurd h (by decide)
  | cons c u =>
    rw [hs] at h h2
    have hc : c = '/' := by simpa [startsWithSlash] using h
    subst hc
    refine ⟨u.reverse, ?_, ?_⟩
    · have hrr := congrArg List.reverse hs
      rw [List.reverse_reverse, List.reverse_cons] at hrr
      exact hrr
    · rw [List.reverse_reverse]
      cases u with
      | nil => rfl
      | cons b v =>
        simp [startsWith2Slash] at h2
        simpa [startsWithSlash] using h2

/-- The s3_path normalization for a stored prefix that is nonempty, has
no leading slash and does not end in a double slash: the key keeps the
prefix's non-slash head, and the relative path is attached after exactly
one slash. -/
theorem s3_path_no_lead (p rel : Str) (hne : p ≠ [])
    (hs : startsWithSlash p = false) (h2 : endsWith2Slash p = false) :
    startsWithSlash (s3_path p rel) = false ∧
    ∃ core, s3_path p rel = core ++ '/' :: rel ∧ endsWithSlash core = false := by
  cases he : endsWithSlash p with
  | true =>
    have hval : s3_path p rel = p ++ rel := by
      simp only [s3_path]
      rw [if_pos he, if_neg (by rw [hs]; exact Bool.false_ne_true)]
    obtain ⟨core, hcore, hce⟩ := slash_end_decomp p he h2
    rw [hval]
    refine ⟨?_, core, ?_, hce⟩
    · rw [startsWithSlash_append p rel hne]
      exact hs
    · rw [hcore, List.append_assoc]
      rfl
  | false =>
    have hval : s3_path p rel = (p ++ ['/']) ++ rel := by
      simp only [s3_path]
      have hpin : (if endsWithSlash p = true then p else p ++ ['/']) = p ++ ['/'] :=
        if_neg (by rw [he]; exact Bool.false_ne_true)
      rw [hpin,
        if_neg (by rw [startsWithSlash_append p ['/'] hne, hs]; exact Bool.false_ne_true)]
    rw [hval]
    refine ⟨?_, p, ?_, he⟩
    · rw [startsWithSlash_append (p ++ ['/']) rel (by simp),
        startsWithSlash_append p ['/'] hne]
      exact hs
    · rw [List.append_assoc]
      rfl

/-- One leading slash of the stored prefix is stripped inside s3_path, so
it can be peeled off before applying `s3_path_no_lead`. -/
theorem s3_path_cons_slash (t rel : Str) (hne : t ≠ [])
    (hs : startsWithSlash t = false) :
    s3_path ('/' :: t) rel = s3_path t rel := by
  have hle : endsWithSlash ('/' :: t) = endsWithSlash t := endsWithSlash_cons '/' t hne
  cases he : endsWithSlash t with
  | true =>
    have l : s3_path ('/' :: t) rel = t ++ rel := by
      simp only [s3_path]
      rw [hle, if_pos he, if_pos (show startsWithSlash ('/' :: t) = true from rfl)]
      rfl
    have r : s3_path t rel = t ++ rel := by
      simp only [s3_path]
      rw [if_pos he, if_neg (by rw [hs]; exact Bool.false_ne_true)]
    rw [l, r]
  | false =>
    have l : s3_path ('/' :: t) rel = (t ++ ['/']) ++ rel := by
      simp only [s3_path]
      have hpin : (if endsWithSlash ('/' :: t) = true then '/' :: t
          else ('/' :: t) ++ ['/']) = ('/' :: t) ++ ['/'] :=
        if_neg (by rw [hle, he]; exact Bool.false_ne_true)
      rw [hpin, if_pos (show startsWithSlash (('/' :: t) ++ ['/']) = true from rfl)]
      rfl
    have r : s3_path t rel = (t ++ ['/']) ++ rel := by
      simp only [s3_path]
      have hpin : (if endsWithSlash t = true then t else t ++ ['/']) = t ++ ['/'] :=
        if_neg (by rw [he]; exact Bool.false_ne_true)
      rw [hpin,
        if_neg (by rw [startsWithSlash_append t ['/'] hne, hs]; exact Bool.false_ne_true)]
    rw [l, r]

/-- C9 counterexample: with the configured prefix `///a` (three leading
slashes), the constructor strips one slash and s3_path strips one more,
leaving an object key that begins with a slash. -/
theorem object_key_leading_slash_cex :
    startsWithSlash (s3_path (prefKeyInit "///a".data) "f.txt".data) = true := by
  decide

/-- C9 amended: for every constructed binding whose configured prefix,
after the constructor strips at most one leading slash, is nonempty, is
not the bare slash, and neither starts nor ends with a double slash, the
object key never begins with a slash and the prefix is joined to the
file's relative path with exactly one separating slash (a non-slash-
terminated core followed by one '/'). -/
theorem object_key_normalization (raw rel : Str)
    (h0 : prefKeyInit raw ≠ [])
    (h1 : prefKeyInit raw ≠ ['/'])
    (h2 : startsWith2Slash (prefKeyInit raw) = false)
    (h3 : endsWith2Slash (prefKeyInit raw) = false) :
    startsWithSlash (s3_path (prefKeyInit raw) rel) = false ∧
    ∃ core, s3_path (prefKeyInit raw) rel = core ++ '/' :: rel ∧
      endsWithSlash core = false := by
  generalize hP : prefKeyInit raw = p at h0 h1 h2 h3 ⊢
  cases hs : startsWithSlash p with
  | false => exact s3_path_no_lead p rel h0 hs h3
  | true =>
    cases p with
    | nil => exact absurd hs (by decide)
    | cons c t =>
      have hc : c = '/' := by simpa [startsWithSlash] using hs
      subst hc
      have htne : t ≠ [] := by
        intro h
        rw [h] at h1
        exact h1 rfl
      have hts : startsWithSlash t = false := by
        cases t with
        | nil => rfl
        | cons b v => simpa [startsWith2Slash, startsWithSlash] using h2
      have ht2 : endsWith2Slash t = false := endsWith2Slash_of_cons '/' t h3
      rw [s3_path_cons_slash t rel htne hts]
      exact s3_path_no_lead t rel htne hts ht2

/-- Witness for C9's amended claim: prefix `/pre/`, relative path
`a.txt`. -/
theorem object_key_normalization_witness :
    startsWithSlash (s3_path (prefKeyInit "/pre/".data) "a.txt".data) = false ∧
    ∃ core, s3_path (prefKeyInit "/pre/".data) "a.txt".data =
        core ++ '/' :: "a.txt".data ∧ endsWithSlash core = false :=
  object_key_normalization "/pre/".data "a.txt".data (by decide) (by decide)
    (by decide) (by decide)

end S3AutoSync
